import Mathlib

/-!
Verification of the CRAM Demand gateway and form contract.

This file shallowly embeds the two pieces of the repository with behavioural
content:

* `src/api/recommend/index.js` — the Azure Static Web Apps function
  (`module.exports` handler and its helper `callAzureOpenAI`, the constant
  `JSON_SCHEMA`, and the environment-variable guard), and
* `src/web/app/page.tsx` / `src/unnamed/part_000` — the `onGenerate`
  submission routine of the single-page form (both files contain the same
  `onGenerate` logic; one embedding covers both).

Modelling conventions:

* JSON/JavaScript values are modelled by the inductive `JVal`.  JSON numbers
  are modelled as integers (`Int`); no code path in the repository depends on
  fractional values.
* `JSON.parse` is a platform primitive, not repository code; it is passed to
  the embedded functions as an oracle `parse : String → Except Exc JVal`
  (`.error` models the thrown `SyntaxError`).  `JSON.stringify` on the values
  the code actually stringifies is embedded as `stringify`.
* Thrown JavaScript exceptions are modelled by `Exc`, carrying the `message`
  string and an optional `stack` string (stack contents are runtime
  generated, so errors constructed by the repository's own `new Error(msg)`
  calls are modelled with `stack := none`; no claim depends on the stack's
  value, only on the presence of the `stack` key in a response body).
* The single outbound `fetch` to the model provider is modelled by passing
  its outcome (`FetchOutcome`) as an input and recording the issued request
  in the result's `calls` list, so that "no network call" and "at most one
  network call" are provable statements.
* JavaScript truthiness (`!x`, `x || y`) is embedded by `jsTruthy`, and the
  `String(x)` coercion by `jsToString`.
-/

set_option autoImplicit false

namespace CramDemand

/-- A JSON/JavaScript value.  Numbers are modelled as integers; object
fields are an association list in insertion order (as produced by
`JSON.parse`, keys are unique). -/
inductive JVal where
  | null
  | bool (b : Bool)
  | num (n : Int)
  | str (s : String)
  | arr (elems : List JVal)
  | obj (fields : List (String × JVal))
deriving Repr

/-- Look up a field of a JSON object by key (first match).  On a non-object,
property access yields `undefined`, modelled as `none` (the object
properties of primitives are never consulted by this code base). -/
def jvalField : JVal → String → Option JVal
  | .obj fields, k => (fields.find? (fun p => p.1 == k)).map (·.2)
  | _, _ => none

/-- Index into a JSON array (`x?.[i]`); `undefined` (`none`) otherwise. -/
def jvalIndex : JVal → Nat → Option JVal
  | .arr elems, i => elems.get? i
  | _, _ => none

/-- JavaScript truthiness of a value: `false`, `0`, `""` and `null` are
falsy; every object and array is truthy. -/
def jsTruthy : JVal → Bool
  | .null => false
  | .bool b => b
  | .num n => n != 0
  | .str s => s != ""
  | .arr _ => true
  | .obj _ => true

/-- Truthiness of a possibly-`undefined` value (`none` is `undefined`). -/
def jsTruthyOpt : Option JVal → Bool
  | none => false
  | some v => jsTruthy v

mutual

/-- The JavaScript `String(x)` coercion: `null`, booleans and numbers print
themselves, arrays join their element strings with commas (with `null`
becoming empty), and plain objects print `[object Object]`. -/
def jsToString : JVal → String
  | .null => "null"
  | .bool b => if b then "true" else "false"
  | .num n => toString n
  | .str s => s
  | .arr elems => jsToStringList elems
  | .obj _ => "[object Object]"

/-- Comma-joined element strings of an array, as `Array.prototype.toString`
produces (`null` elements contribute the empty string). -/
def jsToStringList : List JVal → String
  | [] => ""
  | [v] => jsToStringElem v
  | v :: rest => jsToStringElem v ++ "," ++ jsToStringList rest

/-- One array element's contribution to `Array.prototype.toString`. -/
def jsToStringElem : JVal → String
  | .null => ""
  | v => jsToString v

end

/-- Escape one character for a JSON string literal. -/
def escapeChar (c : Char) : String :=
  if c = '"' then "\\\""
  else if c = '\\' then "\\\\"
  else if c = '\n' then "\\n"
  else if c = '\r' then "\\r"
  else if c = '\t' then "\\t"
  else String.singleton c

/-- Escape a string for a JSON string literal. -/
def escapeString (s : String) : String :=
  s.data.foldl (fun acc c => acc ++ escapeChar c) ""

mutual

/-- The `JSON.stringify` serialisation of a value (no spacing, fields in
insertion order), as used to embed the knowledge base and the request
inputs into the prompt. -/
def stringify : JVal → String
  | .null => "null"
  | .bool b => if b then "true" else "false"
  | .num n => toString n
  | .str s => "\"" ++ escapeString s ++ "\""
  | .arr elems => "[" ++ stringifyList elems ++ "]"
  | .obj fields => "\x7b" ++ stringifyFields fields ++ "\x7d"

/-- Comma-separated serialisations of array elements. -/
def stringifyList : List JVal → String
  | [] => ""
  | [v] => stringify v
  | v :: rest => stringify v ++ "," ++ stringifyList rest

/-- Comma-separated `"key":value` serialisations of object fields. -/
def stringifyFields : List (String × JVal) → String
  | [] => ""
  | [(k, v)] => "\"" ++ escapeString k ++ "\":" ++ stringify v
  | (k, v) :: rest =>
      "\"" ++ escapeString k ++ "\":" ++ stringify v ++ "," ++ stringifyFields rest

end

/-- A thrown JavaScript exception: its `message` and its optional `stack`
string.  Errors created by the repository's own `new Error(msg)` are
modelled with `stack := none` (the runtime-generated stack text is opaque). -/
structure Exc where
  message : String
  stack : Option String
deriving Repr

/-- The `JSON.parse` oracle type: the platform parser either returns a value
or throws a `SyntaxError`. -/
abbrev ParseFn := String → Except Exc JVal

/-! ## The declared response schema

`JSON_SCHEMA` in `src/api/recommend/index.js` is a JSON-Schema document using
only these features: closed objects (`additionalProperties: false` with a
`required` list naming every property), arrays with optional `minItems` /
`maxItems`, strings (optionally with an `enum`), and integers with an
`enum`.  We embed that fragment as `Schema` with a validator `validate`.  -/

/-- The fragment of JSON Schema used by the gateway's `JSON_SCHEMA`
constant.  Every object in that document sets `additionalProperties: false`,
so `obj` carries only the `required` list and the property table. -/
inductive Schema where
  | str (enum : Option (List String))
  | int (enum : List Int)
  | arr (minItems maxItems : Option Nat) (items : Schema)
  | obj (required : List String) (properties : List (String × Schema))
deriving Repr

/-- Look up a property's schema in an object schema's property table. -/
def lookupProp (k : String) : List (String × Schema) → Option Schema
  | [] => none
  | (k', s) :: rest => if k' == k then some s else lookupProp k rest

mutual

/-- Validity of a JSON value against a schema of the embedded fragment:
strings and integers must have the right type and (when given) an enum
member; arrays must respect the item bounds with every element valid;
objects must contain every required key and no key outside the property
table, each valid against its property schema. -/
def validate : Schema → JVal → Bool
  | .str none, .str _ => true
  | .str (some enum), .str s => enum.contains s
  | .int enum, .num n => enum.contains n
  | .arr lo hi items, .arr elems =>
      (match lo with | none => true | some m => decide (m ≤ elems.length)) &&
      (match hi with | none => true | some m => decide (elems.length ≤ m)) &&
      validateAll items elems
  | .obj required properties, .obj fields =>
      required.all (fun k => fields.any (fun p => p.1 == k)) &&
      validateFields properties fields
  | _, _ => false

/-- Every element of a list is valid against the item schema. -/
def validateAll : Schema → List JVal → Bool
  | _, [] => true
  | s, v :: rest => validate s v && validateAll s rest

/-- Every present field is declared in the property table and valid against
its schema (this is `additionalProperties: false`). -/
def validateFields : List (String × Schema) → List (String × JVal) → Bool
  | _, [] => true
  | properties, (k, v) :: rest =>
      (match lookupProp k properties with
       | some s => validate s v
       | none => false) && validateFields properties rest

end

/-- The four stakeholder-engine tags, as they appear in the schema enums. -/
def engineEnum : List String :=
  ["finance", "care_delivery", "technology", "risk_compliance"]

/-- The four audience tags, as they appear in the schema enums. -/
def audienceEnum : List String :=
  ["executive", "operational", "technical", "cross_functional"]

/-- Schema of the `inputs_echo` member. -/
def inputsEchoSchema : Schema :=
  .obj
    ["initiative_id", "buying_job_id", "primary_engine", "secondary_engines",
     "audience_type", "strategic_priority", "trigger_context"]
    [("initiative_id", .str none),
     ("buying_job_id", .str none),
     ("primary_engine", .str (some engineEnum)),
     ("secondary_engines", .arr none none (.str (some engineEnum))),
     ("audience_type", .str (some audienceEnum)),
     ("strategic_priority", .str (some ["high", "medium", "low"])),
     ("trigger_context", .str none)]

/-- Schema of one entry of `recommended_assets`. -/
def recommendedAssetSchema : Schema :=
  .obj
    ["rank", "asset_type", "primary_channel", "format", "use_case",
     "why_recommended", "supported_internal_artifacts", "engine_alignment",
     "audience_alignment", "confidence"]
    [("rank", .int [1, 2, 3]),
     ("asset_type", .str none),
     ("primary_channel", .str none),
     ("format", .str none),
     ("use_case", .str none),
     ("why_recommended", .arr (some 2) (some 6) (.str none)),
     ("supported_internal_artifacts", .arr (some 1) none (.str none)),
     ("engine_alignment", .arr (some 1) none (.str (some engineEnum))),
     ("audience_alignment", .str (some audienceEnum)),
     ("confidence", .str (some ["low", "medium", "high"]))]

/-- Schema of one outline section of `top_asset_build_spec`. -/
def outlineSectionSchema : Schema :=
  .obj
    ["section_title", "section_goal", "required_elements"]
    [("section_title", .str none),
     ("section_goal", .str none),
     ("required_elements", .arr (some 2) (some 8) (.str none))]

/-- Schema of the `top_asset_build_spec` member. -/
def topAssetBuildSpecSchema : Schema :=
  .obj
    ["asset_type", "primary_channel", "format", "messaging_angle", "outline"]
    [("asset_type", .str none),
     ("primary_channel", .str none),
     ("format", .str none),
     ("messaging_angle", .str none),
     ("outline", .arr (some 4) (some 12) outlineSectionSchema)]

/-- Schema of the `proof_requirements` member: four string lists keyed by
the proof-category labels. -/
def proofRequirementsSchema : Schema :=
  .obj
    ["financial", "operational", "technical", "risk_compliance"]
    [("financial", .arr none none (.str none)),
     ("operational", .arr none none (.str none)),
     ("technical", .arr none none (.str none)),
     ("risk_compliance", .arr none none (.str none))]

/-- Schema of one objection entry (objection, response, proof list). -/
def objectionEntrySchema : Schema :=
  .obj
    ["objection", "response", "proof"]
    [("objection", .str none),
     ("response", .str none),
     ("proof", .arr none none (.str none))]

/-- Schema of the `objection_handling` member: objection-entry lists keyed
by the four engine tags. -/
def objectionHandlingSchema : Schema :=
  .obj
    ["finance", "care_delivery", "technology", "risk_compliance"]
    [("finance", .arr none none objectionEntrySchema),
     ("care_delivery", .arr none none objectionEntrySchema),
     ("technology", .arr none none objectionEntrySchema),
     ("risk_compliance", .arr none none objectionEntrySchema)]

/-- Schema of the `traceability` member. -/
def traceabilitySchema : Schema :=
  .obj
    ["artifacts_used", "decision_logic_trace", "assumptions"]
    [("artifacts_used", .arr none none (.str none)),
     ("decision_logic_trace", .arr none none (.str none)),
     ("assumptions", .arr none none (.str none))]

/-- The top-level Response schema body. -/
def responseSchema : Schema :=
  .obj
    ["inputs_echo", "trigger_context_summary", "recommended_assets",
     "top_asset_build_spec", "proof_requirements", "objection_handling",
     "traceability"]
    [("inputs_echo", inputsEchoSchema),
     ("trigger_context_summary", .str none),
     ("recommended_assets", .arr (some 3) (some 3) recommendedAssetSchema),
     ("top_asset_build_spec", topAssetBuildSpecSchema),
     ("proof_requirements", proofRequirementsSchema),
     ("objection_handling", objectionHandlingSchema),
     ("traceability", traceabilitySchema)]

/-- The wrapper object passed as `response_format.json_schema`: a name, the
schema body and the `strict` flag. -/
structure SchemaDescriptor where
  name : String
  schema : Schema
  strict : Bool
deriving Repr

/-- The `JSON_SCHEMA` constant of `src/api/recommend/index.js`. -/
def JSON_SCHEMA : SchemaDescriptor :=
  { name := "cram_demand_recommendation"
    schema := responseSchema
    strict := true }

/-! ## The Recommendation Gateway (`src/api/recommend/index.js`) -/

/-- The `SYSTEM_PROMPT` constant (after its `.trim()`). -/
def SYSTEM_PROMPT : String :=
  "You are CRAM Demand — a decision-support assistant that recommends demand generation content strategies.\n\nGoal:\nGiven a buying context (initiative, buying job, stakeholder engine(s), audience type, strategic priority, and a trigger context), produce 3 ranked content recommendations plus a build-ready spec for the top recommendation.\n\nOperating rules:\n- Do NOT invent initiatives, buying jobs, internal artifacts, engines, asset types, channels, formats, or proof points that are not present in the provided Knowledge Base.\n- You MAY adapt emphasis, ranking, messaging angle, and outline structure based on Trigger Context (treat each situation as 1-of-1), but only using the allowed building blocks from the Knowledge Base.\n- If the Trigger Context implies something outside the Knowledge Base, capture it only as an Assumption and keep recommendations generic rather than inventing specifics.\n\nOutput MUST be valid JSON matching the provided JSON schema.\nKeep output concise and operational."

/-- The environment variables read by the handler; `none` models an unset
variable. -/
structure Env where
  endpoint : Option String
  apiKey : Option String
  deployment : Option String

/-- JavaScript falsiness of an environment variable: unset (`undefined`) or
the empty string. -/
def falsyEnv : Option String → Bool
  | none => true
  | some s => s == ""

/-- The guard condition `!endpoint || !apiKey || !deployment`. -/
def envMissing (env : Env) : Bool :=
  falsyEnv env.endpoint || falsyEnv env.apiKey || falsyEnv env.deployment

/-- The error message of the missing-configuration response. -/
def missingEnvMsg : String :=
  "Missing env vars. Set AZURE_OPENAI_ENDPOINT, AZURE_OPENAI_API_KEY, AZURE_OPENAI_DEPLOYMENT in Azure Static Web Apps configuration."

/-- Strip trailing `/` characters (`endpoint.replace(/\/+$/, \x22\x22)`). -/
def stripTrailingSlashes (s : String) : String :=
  String.mk ((s.data.reverse.dropWhile (· = '/')).reverse)

/-- The `resp.ok` predicate of `fetch`: status in the 200–299 range. -/
def respOk (status : Nat) : Bool :=
  decide (200 ≤ status) && decide (status < 300)

/-- A completed HTTP exchange with the provider: the response status and
body text (`await resp.text()`). -/
structure FetchReply where
  status : Nat
  text : String

/-- Outcome of the single outbound `fetch`: the promise either rejects with
an exception (network failure) or resolves to a reply. -/
inductive FetchOutcome where
  | reject (e : Exc)
  | reply (r : FetchReply)

/-- The outbound request the gateway issues to the model provider: the
constructed URL, the credential header, the two messages, and the
`response_format` schema descriptor.  The fixed `temperature: 0.4` scalar is
a constant of the request body not otherwise consulted, and is not
modelled. -/
structure ProviderRequest where
  url : String
  apiKey : String
  system : String
  user : String
  schema : SchemaDescriptor

/-- The `data?.choices?.[0]?.message?.content` optional chain. -/
def contentOf (data : JVal) : Option JVal :=
  (jvalField data "choices").bind fun choices =>
    (jvalIndex choices 0).bind fun choice =>
      (jvalField choice "message").bind fun message =>
        jvalField message "content"

/-- The exception thrown when the provider's envelope carries no truthy
`content`. -/
def noContentExc : Exc :=
  { message := "No content returned from Azure OpenAI.", stack := none }

/-- The `callAzureOpenAI` helper: builds the URL and request, issues the
one `fetch`, throws on a non-ok status (message carrying the status and the
body text), parses the envelope, and returns the first choice's message
content — throwing when that is absent or falsy.  The function returns the
issued request alongside the thrown-or-returned result. -/
def callAzureOpenAI (endpoint apiKey deployment system user : String)
    (schema : SchemaDescriptor) (parse : ParseFn) (fo : FetchOutcome) :
    ProviderRequest × Except Exc JVal :=
  let base := stripTrailingSlashes endpoint
  let url := base ++ "/openai/deployments/" ++ deployment ++
    "/chat/completions?api-version=2024-08-01-preview"
  let request : ProviderRequest :=
    { url := url, apiKey := apiKey, system := system, user := user, schema := schema }
  let result : Except Exc JVal :=
    match fo with
    | .reject e => .error e
    | .reply r =>
        if !respOk r.status then
          .error { message := "Azure OpenAI error " ++ toString r.status ++ ": " ++ r.text
                   stack := none }
        else
          match parse r.text with
          | .error e => .error e
          | .ok data =>
              match contentOf data with
              | some c => if jsTruthy c then .ok c else .error noContentExc
              | none => .error noContentExc
  (request, result)

/-- The user message built by the handler: the knowledge base and the
request inputs, each as `JSON.stringify` text. -/
def userMessage (kb inputs : JVal) : String :=
  "KNOWLEDGE_BASE_JSON:\n" ++ stringify kb ++ "\n\n" ++
  "REQUEST_INPUTS_JSON:\n" ++ stringify inputs ++ "\n\n" ++
  "Return only JSON that matches the provided schema."

/-- The `inputs` normalisation of the handler: `req.body || \x7b\x7d`, then
a string body is `JSON.parse`d with `\x7b\x7d` substituted on parse
failure. -/
def normalizeInputs (parse : ParseFn) (reqBody : Option JVal) : JVal :=
  let inputs0 : JVal :=
    match reqBody with
    | some v => if jsTruthy v then v else .obj []
    | none => .obj []
  match inputs0 with
  | .str s => (match parse s with | .ok v => v | .error _ => .obj [])
  | v => v

/-- `JSON.parse(x)` applied to an arbitrary JavaScript value: a non-string
argument is first coerced with `String(x)`. -/
def jsonParseJs (parse : ParseFn) : JVal → Except Exc JVal
  | .str s => parse s
  | v => parse (jsToString v)

/-- The constant response headers. -/
def jsonHeaders : List (String × String) :=
  [("Content-Type", "application/json")]

/-- The response the `catch` branch builds: status 500 with
`error: err?.message || String(err)` (for an `Error` with an empty message,
`String(err)` is `"Error"`) and `stack: err?.stack || null`. -/
def catchBody (e : Exc) : JVal :=
  .obj [("error", .str (if e.message = "" then "Error" else e.message)),
        ("stack", match e.stack with
                  | some s => if s = "" then .null else .str s
                  | none => .null)]

/-- The handler's one HTTP response (`context.res`) together with the list
of outbound provider requests the invocation issued. -/
structure HandlerResult where
  status : Nat
  headers : List (String × String)
  body : JVal
  calls : List ProviderRequest

/-- The exported handler of `src/api/recommend/index.js`.  Inputs beyond the
request body: the environment (`env`), the outcome of reading
`api/data/kb_dummy_v1.json` (`kbResult`; `.error` models a thrown read or
parse failure), the `JSON.parse` oracle, and the outcome of the single
outbound `fetch`.  The result records every provider request issued, so
that the absence of a network call is provable. -/
def handler (env : Env) (kbResult : Except Exc JVal) (reqBody : Option JVal)
    (parse : ParseFn) (fo : FetchOutcome) : HandlerResult :=
  if envMissing env then
    { status := 500
      headers := jsonHeaders
      body := .obj [("error", .str missingEnvMsg)]
      calls := [] }
  else
    match kbResult with
    | .error e =>
        { status := 500, headers := jsonHeaders, body := catchBody e, calls := [] }
    | .ok kb =>
        let inputs := normalizeInputs parse reqBody
        let userMsg := userMessage kb inputs
        let call :=
          callAzureOpenAI (env.endpoint.getD "") (env.apiKey.getD "")
            (env.deployment.getD "") SYSTEM_PROMPT userMsg JSON_SCHEMA parse fo
        match call.2 with
        | .error e =>
            { status := 500, headers := jsonHeaders, body := catchBody e,
              calls := [call.1] }
        | .ok raw =>
            match jsonParseJs parse raw with
            | .error e =>
                { status := 500, headers := jsonHeaders, body := catchBody e,
                  calls := [call.1] }
            | .ok parsed =>
                { status := 200, headers := jsonHeaders, body := parsed,
                  calls := [call.1] }

/-! ## The Interactive Form (`src/web/app/page.tsx` and
`src/unnamed/part_000`)

Both files define the same `onGenerate` submission routine (the unnamed
file is an earlier revision of the page with identical logic in the parts
the claims cite); a single embedding covers both.  -/

/-- The `Engine` union type of the page. -/
inductive Engine where
  | finance
  | care_delivery
  | technology
  | risk_compliance
deriving DecidableEq, Repr

/-- The `Audience` union type of the page. -/
inductive Audience where
  | executive
  | operational
  | technical
  | cross_functional
deriving DecidableEq, Repr

/-- The `Priority` union type of the page. -/
inductive Priority where
  | high
  | medium
  | low
deriving DecidableEq, Repr

/-- The JavaScript `String.prototype.trim()`: strip leading and trailing
whitespace characters (the ASCII whitespace set of `Char.isWhitespace`;
JavaScript also strips some Unicode spaces, which no claim depends on). -/
def jsTrim (s : String) : String :=
  String.mk (((s.data.dropWhile Char.isWhitespace).reverse.dropWhile
    Char.isWhitespace).reverse)

/-- The `RecommendRequest` payload type of the page. -/
structure RecommendRequest where
  initiative_id : String
  buying_job_id : String
  primary_engine : Engine
  secondary_engines : List Engine
  audience_type : Audience
  strategic_priority : Priority
  trigger_context : String
deriving DecidableEq, Repr

/-- The form state read by `onGenerate`: the seven input fields. -/
structure FormState where
  initiativeId : String
  buyingJobId : String
  primaryEngine : Engine
  secondaryEngines : List Engine
  audienceType : Audience
  priority : Priority
  triggerContext : String

/-- The observable end state of one `onGenerate` run: the `error` and
`result` React states after the routine returns (with `loading` back to
`false`), and the payload sent to `/api/recommend` (`none` when validation
blocked the call). -/
structure UIFinal where
  error : String
  result : Option JVal
  sent : Option RecommendRequest
  loading : Bool
deriving Repr

/-- The payload `onGenerate` builds from the form state: the fields as
selected, `secondary_engines` with every element equal to the primary
engine filtered out, and the trigger context trimmed. -/
def buildPayload (st : FormState) : RecommendRequest :=
  { initiative_id := st.initiativeId
    buying_job_id := st.buyingJobId
    primary_engine := st.primaryEngine
    secondary_engines :=
      st.secondaryEngines.filter (fun e => decide (e ≠ st.primaryEngine))
    audience_type := st.audienceType
    strategic_priority := st.priority
    trigger_context := jsTrim st.triggerContext }

/-- Displayed text of a caught exception:
`e?.message || String(e)` — for an `Error` whose message is empty,
`String(e)` yields `"Error"`. -/
def displayedError (msg : String) : String :=
  if msg = "" then "Error" else msg

/-- The message thrown on a non-ok gateway status:
`data?.error || rawText || "Request failed (status)"` (first truthy,
coerced to a string by the `Error` constructor). -/
def nonOkMessage (data : Option JVal) (text : String) (status : Nat) : String :=
  match data.bind (fun d => jvalField d "error") with
  | some ev =>
      if jsTruthy ev then jsToString ev
      else if text != "" then text
      else "Request failed (" ++ toString status ++ ")"
  | none =>
      if text != "" then text
      else "Request failed (" ++ toString status ++ ")"

/-- The `onGenerate` routine.  It starts by clearing the error and the
previous result (so the prior result never survives the run), validates the
initiative and the trimmed trigger context, builds the payload, posts it,
and then reads the reply: the body text is parsed when non-empty (parse
failure leaves `data` null), a non-ok status throws the extracted message, a
null `data` on an ok status throws the empty-response message, and a parsed
body becomes the displayed result.  The previous result is an input only to
show the routine never depends on it. -/
def onGenerate (prevResult : Option JVal) (st : FormState)
    (parse : ParseFn) (fo : FetchOutcome) : UIFinal :=
  let _ := prevResult
  if st.initiativeId = "" then
    { error := "Select an initiative.", result := none, sent := none, loading := false }
  else if jsTrim st.triggerContext = "" then
    { error := "Add a short trigger context (1–2 sentences)."
      result := none, sent := none, loading := false }
  else
    let payload := buildPayload st
    match fo with
    | .reject e =>
        { error := displayedError e.message, result := none
          sent := some payload, loading := false }
    | .reply r =>
        let data : Option JVal :=
          if r.text = "" then none
          else match parse r.text with
               | .ok v => some v
               | .error _ => none
        if !respOk r.status then
          { error := displayedError (nonOkMessage data r.text r.status)
            result := none, sent := some payload, loading := false }
        else
          match data with
          | none =>
              { error := "API returned empty/non-JSON response."
                result := none, sent := some payload, loading := false }
          | some d =>
              { error := "", result := some d
                sent := some payload, loading := false }

/-! ## Predicates and concrete inputs used by the claims -/

/-- The provider envelope carries no usable content: the optional chain
`data?.choices?.[0]?.message?.content` is `undefined` or falsy. -/
def contentAbsent (d : JVal) : Prop :=
  contentOf d = none ∨ ∃ c, contentOf d = some c ∧ jsTruthy c = false

/-- The provider envelope carries a non-empty string content that the
`JSON.parse` oracle rejects. -/
def contentUnparseable (parse : ParseFn) (d : JVal) : Prop :=
  ∃ s e, contentOf d = some (.str s) ∧ s ≠ "" ∧ parse s = .error e

/-- A failed submission as the form experiences it: the `fetch` promise
rejected, or the gateway answered a non-ok status, or an ok status with an
empty or unparseable body. -/
def uiFailure (parse : ParseFn) (fo : FetchOutcome) : Prop :=
  match fo with
  | .reject _ => True
  | .reply r => respOk r.status = false ∨ r.text = "" ∨ ∃ e, parse r.text = .error e

/-- A fully configured environment used for concrete evaluations. -/
def cexEnv : Env :=
  { endpoint := some "https://unit.test", apiKey := some "key", deployment := some "dep" }

/-- A concrete provider envelope whose first choice's message content is the
string `"CONTENT"`. -/
def cexEnvelope : JVal :=
  .obj [("choices", .arr [.obj [("message", .obj [("content", .str "CONTENT")])]])]

/-- A concrete `JSON.parse` oracle: the text `"ENVELOPE"` parses to
`cexEnvelope`, the text `"CONTENT"` parses to the empty object, and
everything else throws. -/
def cexParse : ParseFn := fun s =>
  if s = "ENVELOPE" then .ok cexEnvelope
  else if s = "CONTENT" then .ok (.obj [])
  else .error { message := "Unexpected token", stack := some "SyntaxError" }

/-- A concrete `JSON.parse` oracle for an envelope with no `choices`
member: the text `"NOCHOICE"` parses to the empty object; everything else
behaves as `cexParse`. -/
def cexParseNC : ParseFn := fun s =>
  if s = "NOCHOICE" then .ok (.obj []) else cexParse s

/-- A concrete form state: primary engine `finance`, secondary engines
`[finance, technology]`, non-empty initiative and trigger context. -/
def cexForm : FormState :=
  { initiativeId := "reduce_denials"
    buyingJobId := "vendor_selection"
    primaryEngine := .finance
    secondaryEngines := [.finance, .technology]
    audienceType := .executive
    priority := .high
    triggerContext := "Denials up 15% this quarter." }

/-! ## Helper lemmas -/

theorem displayedError_ne_empty (m : String) : displayedError m ≠ "" := by
  unfold displayedError
  split
  · decide
  · assumption

theorem string_append_ne_empty (a b : String) (h : a.length ≠ 0) : a ++ b ≠ "" := by
  intro he
  apply h
  have hlen := congrArg String.length he
  rw [String.length_append] at hlen
  have h0 : ("" : String).length = 0 := rfl
  omega

theorem azure_msg_ne_empty (n : Nat) (t : String) :
    "Azure OpenAI error " ++ toString n ++ ": " ++ t ≠ "" := by
  apply string_append_ne_empty
  rw [String.length_append, String.length_append]
  have h1 : ("Azure OpenAI error " : String).length = 19 := rfl
  have h2 : (": " : String).length = 2 := rfl
  omega

theorem normalizeInputs_none (parse : ParseFn) :
    normalizeInputs parse none = .obj [] := rfl

theorem normalizeInputs_badString (parse : ParseFn) (s : String) (e : Exc)
    (hs : s ≠ "") (hp : parse s = .error e) :
    normalizeInputs parse (some (.str s)) = .obj [] := by
  simp [normalizeInputs, jsTruthy, bne_iff_ne, hs, hp]

theorem catchBody_error_field (e : Exc) :
    jvalField (catchBody e) "error" =
      some (.str (if e.message = "" then "Error" else e.message)) := by
  simp [catchBody, jvalField, List.find?]

theorem catchBody_shape (e : Exc) :
    ∃ m sv, catchBody e = .obj [("error", .str m), ("stack", sv)] ∧
      (sv = .null ∨ ∃ t, sv = .str t) := by
  refine ⟨_, _, rfl, ?_⟩
  cases h : e.stack with
  | none => exact Or.inl rfl
  | some s =>
      by_cases hs : s = ""
      · exact Or.inl (by simp [hs])
      · exact Or.inr ⟨s, by simp [hs]⟩

theorem gateway_calls_user (env : Env) (kb : JVal) (reqBody : Option JVal)
    (parse : ParseFn) (fo : FetchOutcome) (hEnv : envMissing env = false) :
    (handler env (.ok kb) reqBody parse fo).calls.map (fun q => q.user) =
      [userMessage kb (normalizeInputs parse reqBody)] := by
  unfold handler
  simp only [hEnv, Bool.false_eq_true, if_false]
  split
  · simp [callAzureOpenAI]
  · split <;> simp [callAzureOpenAI]

/-! ## Claims -/

/-- C1: if any of the three configuration values (service endpoint, access
credential, deployment identifier) is missing (or empty), the handler
answers the configuration-error response (status 500 with the fixed
message) and issues no outbound provider request. -/
theorem gateway_missing_config_no_call (env : Env) (kbResult : Except Exc JVal)
    (reqBody : Option JVal) (parse : ParseFn) (fo : FetchOutcome)
    (h : envMissing env = true) :
    (handler env kbResult reqBody parse fo).status = 500 ∧
    (handler env kbResult reqBody parse fo).body =
      .obj [("error", .str missingEnvMsg)] ∧
    (handler env kbResult reqBody parse fo).calls = [] := by
  simp [handler, h]

/-- Witness for C1: with the endpoint unset, the handler returns status 500
with the configuration-error body and makes no provider call. -/
theorem gateway_missing_config_no_call_witness :
    envMissing { endpoint := none, apiKey := some "key", deployment := some "dep" } = true ∧
    ((handler { endpoint := none, apiKey := some "key", deployment := some "dep" }
        (.ok (JVal.obj [])) none cexParse (.reply ⟨200, "ENVELOPE"⟩)).status = 500 ∧
     (handler { endpoint := none, apiKey := some "key", deployment := some "dep" }
        (.ok (JVal.obj [])) none cexParse (.reply ⟨200, "ENVELOPE"⟩)).body =
       .obj [("error", .str missingEnvMsg)] ∧
     (handler { endpoint := none, apiKey := some "key", deployment := some "dep" }
        (.ok (JVal.obj [])) none cexParse (.reply ⟨200, "ENVELOPE"⟩)).calls = []) :=
  ⟨rfl, gateway_missing_config_no_call _ _ _ _ _ rfl⟩

/-- C8: every invocation of the handler issues at most one outbound
provider request — no retry and no fan-out.  (The embedding is a sequential
function of the single `fetch` outcome, so the call is also awaited before
the response is produced.) -/
theorem gateway_at_most_one_call (env : Env) (kbResult : Except Exc JVal)
    (reqBody : Option JVal) (parse : ParseFn) (fo : FetchOutcome) :
    (handler env kbResult reqBody parse fo).calls.length ≤ 1 := by
  unfold handler
  split
  · simp
  · split
    · simp
    · dsimp only
      split
      · simp
      · split <;> simp

/-- C5: a provider reply with a non-success HTTP status makes the handler
fail with status 500, the response body's `error` field carrying exactly
the message built from the provider's status code and body text. -/
theorem gateway_upstream_error_status (env : Env) (kb : JVal)
    (reqBody : Option JVal) (parse : ParseFn) (r : FetchReply)
    (hEnv : envMissing env = false) (hbad : respOk r.status = false) :
    (handler env (.ok kb) reqBody parse (.reply r)).status = 500 ∧
    jvalField (handler env (.ok kb) reqBody parse (.reply r)).body "error" =
      some (.str ("Azure OpenAI error " ++ toString r.status ++ ": " ++ r.text)) := by
  have hmsg := azure_msg_ne_empty r.status r.text
  simp [handler, hEnv, callAzureOpenAI, hbad, catchBody, jvalField, List.find?, hmsg]

/-- Witness for C5: a concrete 404 reply yields status 500 with the error
message carrying the 404 and the body text. -/
theorem gateway_upstream_error_status_witness :
    envMissing cexEnv = false ∧ respOk 404 = false ∧
    ((handler cexEnv (.ok (JVal.obj [])) none cexParse (.reply ⟨404, "oops"⟩)).status = 500 ∧
     jvalField (handler cexEnv (.ok (JVal.obj [])) none cexParse
        (.reply ⟨404, "oops"⟩)).body "error" =
       some (.str ("Azure OpenAI error " ++ toString 404 ++ ": " ++ "oops"))) :=
  ⟨rfl, rfl, gateway_upstream_error_status _ _ _ _ _ rfl rfl⟩

/-- C4: when the provider call succeeds at the HTTP level but the
envelope's message content is absent (or falsy), or is a string that fails
to parse as JSON, the handler fails with status 500 — carrying an error
message — rather than returning the malformed data with success status. -/
theorem gateway_invalid_content_fails (env : Env) (kb d : JVal)
    (reqBody : Option JVal) (parse : ParseFn) (r : FetchReply)
    (hEnv : envMissing env = false) (hok : respOk r.status = true)
    (hd : parse r.text = .ok d)
    (hbad : contentAbsent d ∨ contentUnparseable parse d) :
    (handler env (.ok kb) reqBody parse (.reply r)).status = 500 ∧
    (handler env (.ok kb) reqBody parse (.reply r)).status ≠ 200 ∧
    ∃ m, jvalField (handler env (.ok kb) reqBody parse (.reply r)).body "error" =
      some (.str m) := by
  rcases hbad with hnone | hunp
  · rcases hnone with hnone | ⟨c, hc, hfalsy⟩
    · refine ⟨?_, ?_, ?_⟩ <;>
        simp [handler, hEnv, callAzureOpenAI, hok, hd, hnone, catchBody_error_field]
    · refine ⟨?_, ?_, ?_⟩ <;>
        simp [handler, hEnv, callAzureOpenAI, hok, hd, hc, hfalsy, catchBody_error_field]
  · obtain ⟨s, e, hc, hs, hpe⟩ := hunp
    refine ⟨?_, ?_, ?_⟩ <;>
      simp [handler, hEnv, callAzureOpenAI, hok, hd, hc, jsTruthy, bne_iff_ne, hs,
        jsonParseJs, hpe, catchBody_error_field]

/-- Witness for C4: a concrete ok reply whose envelope carries no `choices`
member yields status 500 with an error field. -/
theorem gateway_invalid_content_fails_witness :
    envMissing cexEnv = false ∧ respOk 200 = true ∧
    cexParseNC "NOCHOICE" = .ok (.obj []) ∧
    contentAbsent (.obj []) ∧
    ((handler cexEnv (.ok (JVal.obj [])) none cexParseNC
        (.reply ⟨200, "NOCHOICE"⟩)).status = 500 ∧
     (handler cexEnv (.ok (JVal.obj [])) none cexParseNC
        (.reply ⟨200, "NOCHOICE"⟩)).status ≠ 200 ∧
     ∃ m, jvalField (handler cexEnv (.ok (JVal.obj [])) none cexParseNC
        (.reply ⟨200, "NOCHOICE"⟩)).body "error" = some (.str m)) := by
  refine ⟨rfl, rfl, rfl, Or.inl rfl, ?_⟩
  exact gateway_invalid_content_fails _ _ _ _ _ _ rfl rfl rfl (Or.inl (Or.inl rfl))

/-- C2 counterexample: the claim says the gateway never returns with
success status a response violating the closed Response schema; but at this
concrete input the provider's ok reply carries the JSON text of an empty
object, and the handler returns it with status 200 although it fails the
declared schema. -/
theorem gateway_schema_passthrough_cex :
    (handler cexEnv (.ok (JVal.obj [])) none cexParse (.reply ⟨200, "ENVELOPE"⟩)).status = 200 ∧
    validate JSON_SCHEMA.schema
      (handler cexEnv (.ok (JVal.obj [])) none cexParse
        (.reply ⟨200, "ENVELOPE"⟩)).body = false :=
  ⟨rfl, rfl⟩

/-- C2 amended: the gateway performs no local schema validation — any
provider content that parses as JSON is returned verbatim with status 200,
whether or not it satisfies the Response schema; schema enforcement is
delegated to the provider by sending the strict `JSON_SCHEMA` descriptor
with the one outbound request. -/
theorem gateway_schema_delegated (env : Env) (kb d v : JVal)
    (reqBody : Option JVal) (parse : ParseFn) (r : FetchReply) (s : String)
    (hEnv : envMissing env = false) (hok : respOk r.status = true)
    (hd : parse r.text = .ok d) (hc : contentOf d = some (.str s)) (hs : s ≠ "")
    (hv : parse s = .ok v) :
    (handler env (.ok kb) reqBody parse (.reply r)).status = 200 ∧
    (handler env (.ok kb) reqBody parse (.reply r)).body = v ∧
    (handler env (.ok kb) reqBody parse (.reply r)).calls.map (fun q => q.schema) =
      [JSON_SCHEMA] := by
  refine ⟨?_, ?_, ?_⟩ <;>
    simp [handler, hEnv, callAzureOpenAI, hok, hd, hc, jsTruthy, bne_iff_ne, hs,
      jsonParseJs, hv]

/-- Witness for C2's amended theorem: the concrete pass-through input of
the counterexample satisfies its hypotheses, and the schema-invalid empty
object comes back with status 200. -/
theorem gateway_schema_delegated_witness :
    envMissing cexEnv = false ∧ respOk 200 = true ∧
    cexParse "ENVELOPE" = .ok cexEnvelope ∧
    contentOf cexEnvelope = some (.str "CONTENT") ∧
    cexParse "CONTENT" = .ok (.obj []) ∧
    ((handler cexEnv (.ok (JVal.obj [])) none cexParse (.reply ⟨200, "ENVELOPE"⟩)).status = 200 ∧
     (handler cexEnv (.ok (JVal.obj [])) none cexParse (.reply ⟨200, "ENVELOPE"⟩)).body =
       .obj [] ∧
     (handler cexEnv (.ok (JVal.obj [])) none cexParse
        (.reply ⟨200, "ENVELOPE"⟩)).calls.map (fun q => q.schema) = [JSON_SCHEMA]) := by
  refine ⟨rfl, rfl, rfl, rfl, rfl, ?_⟩
  exact gateway_schema_delegated _ _ _ _ _ _ _ "CONTENT" rfl rfl rfl rfl
    (by decide) rfl

/-- C6: a request body that is a non-empty string failing JSON parsing is
replaced by the empty object and processing continues — the provider call
is still issued, with the user message embedding empty inputs; an absent
body behaves the same way. -/
theorem gateway_malformed_body_empty_inputs (env : Env) (kb : JVal)
    (parse : ParseFn) (fo : FetchOutcome) (s : String) (e : Exc)
    (hEnv : envMissing env = false) (hs : s ≠ "") (hp : parse s = .error e) :
    (handler env (.ok kb) (some (.str s)) parse fo).calls.map (fun q => q.user) =
      [userMessage kb (.obj [])] ∧
    (handler env (.ok kb) none parse fo).calls.map (fun q => q.user) =
      [userMessage kb (.obj [])] := by
  constructor
  · rw [gateway_calls_user env kb _ parse fo hEnv,
      normalizeInputs_badString parse s e hs hp]
  · rw [gateway_calls_user env kb _ parse fo hEnv, normalizeInputs_none]

/-- Witness for C6: a concrete unparseable string body still produces
exactly one provider call whose user message embeds the empty object. -/
theorem gateway_malformed_body_empty_inputs_witness :
    envMissing cexEnv = false ∧ ("not json" : String) ≠ "" ∧
    cexParse "not json" = .error { message := "Unexpected token", stack := some "SyntaxError" } ∧
    ((handler cexEnv (.ok (JVal.obj [])) (some (.str "not json")) cexParse
        (.reply ⟨200, "ENVELOPE"⟩)).calls.map (fun q => q.user) =
      [userMessage (.obj []) (.obj [])] ∧
     (handler cexEnv (.ok (JVal.obj [])) none cexParse
        (.reply ⟨200, "ENVELOPE"⟩)).calls.map (fun q => q.user) =
      [userMessage (.obj []) (.obj [])]) := by
  refine ⟨rfl, by decide, rfl, ?_⟩
  exact gateway_malformed_body_empty_inputs cexEnv (.obj []) cexParse
    (.reply ⟨200, "ENVELOPE"⟩) "not json"
    { message := "Unexpected token", stack := some "SyntaxError" }
    rfl (by decide) rfl

/-- C3: whenever a submission passes validation, the transmitted payload's
`secondary_engines` is the selected list with every element equal to the
primary engine removed and all other elements kept in order, so the
payload never contains the primary engine. -/
theorem ui_secondary_excludes_primary (prevResult : Option JVal)
    (st : FormState) (parse : ParseFn) (fo : FetchOutcome)
    (h1 : st.initiativeId ≠ "") (h2 : jsTrim st.triggerContext ≠ "") :
    ∃ p, (onGenerate prevResult st parse fo).sent = some p ∧
      p.secondary_engines =
        st.secondaryEngines.filter (fun e => decide (e ≠ st.primaryEngine)) ∧
      st.primaryEngine ∉ p.secondary_engines := by
  refine ⟨buildPayload st, ?_, rfl, ?_⟩
  · unfold onGenerate
    rw [if_neg h1, if_neg h2]
    cases fo with
    | reject e => rfl
    | reply r =>
        dsimp only
        split
        · rfl
        · split <;> rfl
  · intro hmem
    simp only [buildPayload, List.mem_filter, decide_eq_true_eq] at hmem
    exact hmem.2 rfl

/-- Witness for C3: submitting primary `finance` with secondary
`[finance, technology]` transmits a payload whose secondary engines are
exactly `[technology]`. -/
theorem ui_secondary_excludes_primary_witness :
    cexForm.initiativeId ≠ "" ∧ jsTrim cexForm.triggerContext ≠ "" ∧
    cexForm.secondaryEngines.filter (fun e => decide (e ≠ cexForm.primaryEngine)) =
      [.technology] ∧
    (∃ p, (onGenerate none cexForm cexParse (.reply ⟨200, "CONTENT"⟩)).sent = some p ∧
      p.secondary_engines =
        cexForm.secondaryEngines.filter (fun e => decide (e ≠ cexForm.primaryEngine)) ∧
      cexForm.primaryEngine ∉ p.secondary_engines) :=
  ⟨by decide, by decide, by decide,
    ui_secondary_excludes_primary none cexForm cexParse (.reply ⟨200, "CONTENT"⟩)
      (by decide) (by decide)⟩

/-- C7: a submission with an empty initiative selection or a
whitespace-only trigger context is blocked — no request is sent, no result
is shown, and a non-empty validation message is displayed. -/
theorem ui_validation_blocks (prevResult : Option JVal) (st : FormState)
    (parse : ParseFn) (fo : FetchOutcome)
    (h : st.initiativeId = "" ∨ jsTrim st.triggerContext = "") :
    (onGenerate prevResult st parse fo).sent = none ∧
    (onGenerate prevResult st parse fo).result = none ∧
    (onGenerate prevResult st parse fo).error ≠ "" ∧
    ((onGenerate prevResult st parse fo).error = "Select an initiative." ∨
     (onGenerate prevResult st parse fo).error =
       "Add a short trigger context (1–2 sentences).") := by
  by_cases hi : st.initiativeId = ""
  · unfold onGenerate
    rw [if_pos hi]
    exact ⟨rfl, rfl, by decide, Or.inl rfl⟩
  · rcases h with h | h
    · exact absurd h hi
    · unfold onGenerate
      rw [if_neg hi, if_pos h]
      exact ⟨rfl, rfl, by decide, Or.inr rfl⟩

/-- Witness for C7: with an empty initiative the form sends nothing and
shows the validation message. -/
theorem ui_validation_blocks_witness :
    ({ cexForm with initiativeId := "" } : FormState).initiativeId = "" ∧
    ((onGenerate none { cexForm with initiativeId := "" } cexParse
        (.reply ⟨200, "CONTENT"⟩)).sent = none ∧
     (onGenerate none { cexForm with initiativeId := "" } cexParse
        (.reply ⟨200, "CONTENT"⟩)).result = none ∧
     (onGenerate none { cexForm with initiativeId := "" } cexParse
        (.reply ⟨200, "CONTENT"⟩)).error ≠ "" ∧
     ((onGenerate none { cexForm with initiativeId := "" } cexParse
        (.reply ⟨200, "CONTENT"⟩)).error = "Select an initiative." ∨
      (onGenerate none { cexForm with initiativeId := "" } cexParse
        (.reply ⟨200, "CONTENT"⟩)).error =
        "Add a short trigger context (1–2 sentences).")) :=
  ⟨rfl, ui_validation_blocks none _ cexParse (.reply ⟨200, "CONTENT"⟩) (Or.inl rfl)⟩

/-- C9: whenever a validated submission fails — the fetch rejects, the
gateway answers a non-ok status, or an ok status with an empty or
unparseable body — the form ends with a non-empty error message displayed,
no result shown (whatever was shown before), and the busy flag cleared. -/
theorem ui_failure_clears_result (prevResult : Option JVal) (st : FormState)
    (parse : ParseFn) (fo : FetchOutcome)
    (h1 : st.initiativeId ≠ "") (h2 : jsTrim st.triggerContext ≠ "")
    (hf : uiFailure parse fo) :
    (onGenerate prevResult st parse fo).result = none ∧
    (onGenerate prevResult st parse fo).error ≠ "" ∧
    (onGenerate prevResult st parse fo).loading = false := by
  unfold onGenerate
  rw [if_neg h1, if_neg h2]
  cases fo with
  | reject e => exact ⟨rfl, displayedError_ne_empty _, rfl⟩
  | reply r =>
      simp only [uiFailure] at hf
      by_cases hok : respOk r.status = true
      · have hdata : (if r.text = "" then none
            else match parse r.text with
                 | .ok v => some v
                 | .error _ => none) = (none : Option JVal) := by
          rcases hf with hbad | htext | ⟨e, hpe⟩
          · simp [hok] at hbad
          · simp [htext]
          · by_cases ht : r.text = ""
            · simp [ht]
            · simp [ht, hpe]
        simp only [hdata, hok, Bool.not_true, Bool.false_eq_true, if_false]
        refine ⟨by simp, by decide, by simp⟩
      · have hok' : respOk r.status = false := by
          cases hr : respOk r.status
          · rfl
          · exact absurd hr hok
        simp only [hok', Bool.not_false, if_true]
        refine ⟨by simp, displayedError_ne_empty _, by simp⟩

/-- Witness for C9: a concrete 500 reply with an unparseable body ends with
no result and a non-empty error. -/
theorem ui_failure_clears_result_witness :
    cexForm.initiativeId ≠ "" ∧ jsTrim cexForm.triggerContext ≠ "" ∧
    uiFailure cexParse (.reply ⟨500, "boom"⟩) ∧
    ((onGenerate (some (.obj [])) cexForm cexParse (.reply ⟨500, "boom"⟩)).result = none ∧
     (onGenerate (some (.obj [])) cexForm cexParse (.reply ⟨500, "boom"⟩)).error ≠ "" ∧
     (onGenerate (some (.obj [])) cexForm cexParse (.reply ⟨500, "boom"⟩)).loading = false) :=
  ⟨by decide, by decide, Or.inl rfl,
    ui_failure_clears_result (some (.obj [])) cexForm cexParse (.reply ⟨500, "boom"⟩)
      (by decide) (by decide) (Or.inl rfl)⟩

/-- C10 counterexample: the claim says every failure path returns a body
with both an `error` string and a `stack` field; but at this concrete
missing-configuration input the handler's 500 body has an `error` field
and no `stack` field at all. -/
theorem gateway_config_error_no_stack_cex :
    (handler { endpoint := none, apiKey := none, deployment := none }
        (.ok (JVal.obj [])) none cexParse (.reply ⟨200, "ENVELOPE"⟩)).status = 500 ∧
    jvalField (handler { endpoint := none, apiKey := none, deployment := none }
        (.ok (JVal.obj [])) none cexParse (.reply ⟨200, "ENVELOPE"⟩)).body "error" =
      some (.str missingEnvMsg) ∧
    jvalField (handler { endpoint := none, apiKey := none, deployment := none }
        (.ok (JVal.obj [])) none cexParse (.reply ⟨200, "ENVELOPE"⟩)).body "stack" =
      none :=
  ⟨rfl, rfl, rfl⟩

/-- C10 amended: the handler is total at its interface — every invocation
produces exactly one response, of status 200 or 500; every 500 body carries
an `error` message string; the configuration-error body carries only the
`error` field, while every other failure (the catch branch) answers with a
body of exactly an `error` string and a `stack` field that is a string or
null. -/
theorem gateway_total_error_envelope (env : Env) (kbResult : Except Exc JVal)
    (reqBody : Option JVal) (parse : ParseFn) (fo : FetchOutcome) :
    ((handler env kbResult reqBody parse fo).status = 200 ∨
     (handler env kbResult reqBody parse fo).status = 500) ∧
    ((handler env kbResult reqBody parse fo).status = 500 →
      ∃ m, jvalField (handler env kbResult reqBody parse fo).body "error" =
        some (.str m)) ∧
    (envMissing env = true →
      (handler env kbResult reqBody parse fo).body =
        .obj [("error", .str missingEnvMsg)]) ∧
    (envMissing env = false →
      (handler env kbResult reqBody parse fo).status = 500 →
      ∃ m sv, (handler env kbResult reqBody parse fo).body =
        .obj [("error", .str m), ("stack", sv)] ∧
        (sv = .null ∨ ∃ t, sv = .str t)) := by
  unfold handler
  split
  case isTrue h =>
    refine ⟨Or.inr rfl, fun _ => ⟨missingEnvMsg, ?_⟩, fun _ => rfl, fun hf _ => ?_⟩
    · simp [jvalField, List.find?]
    · rw [h] at hf; cases hf
  case isFalse h =>
    have hEnvT : envMissing env = true → False := fun hc => h hc
    split
    case h_1 e =>
      obtain ⟨m, sv, hbody, hsv⟩ := catchBody_shape e
      refine ⟨Or.inr rfl, fun _ => ⟨_, catchBody_error_field e⟩,
        fun hc => absurd hc hEnvT, fun _ _ => ⟨m, sv, hbody, hsv⟩⟩
    case h_2 kb =>
      dsimp only
      split
      case h_1 e heq =>
        obtain ⟨m, sv, hbody, hsv⟩ := catchBody_shape e
        refine ⟨Or.inr rfl, fun _ => ⟨_, catchBody_error_field e⟩,
          fun hc => absurd hc hEnvT, fun _ _ => ⟨m, sv, hbody, hsv⟩⟩
      case h_2 raw heq =>
        split
        case h_1 e heq2 =>
          obtain ⟨m, sv, hbody, hsv⟩ := catchBody_shape e
          refine ⟨Or.inr rfl, fun _ => ⟨_, catchBody_error_field e⟩,
            fun hc => absurd hc hEnvT, fun _ _ => ⟨m, sv, hbody, hsv⟩⟩
        case h_2 parsed heq2 =>
          refine ⟨Or.inl rfl, fun hc => ?_, fun hc => absurd hc hEnvT, fun _ hc => ?_⟩
          · cases hc
          · cases hc

/-- Witness for C10's amended theorem: at the concrete
missing-configuration input the instantiated conjuncts give the 500 status,
the error string, and the configuration-error body. -/
theorem gateway_total_error_envelope_witness :
    ((handler { endpoint := none, apiKey := none, deployment := none }
        (.ok (JVal.obj [])) none cexParse (.reply ⟨200, "ENVELOPE"⟩)).status = 200 ∨
     (handler { endpoint := none, apiKey := none, deployment := none }
        (.ok (JVal.obj [])) none cexParse (.reply ⟨200, "ENVELOPE"⟩)).status = 500) ∧
    (∃ m, jvalField (handler { endpoint := none, apiKey := none, deployment := none }
        (.ok (JVal.obj [])) none cexParse (.reply ⟨200, "ENVELOPE"⟩)).body "error" =
      some (.str m)) ∧
    (handler { endpoint := none, apiKey := none, deployment := none }
        (.ok (JVal.obj [])) none cexParse (.reply ⟨200, "ENVELOPE"⟩)).body =
      .obj [("error", .str missingEnvMsg)] := by
  have h := gateway_total_error_envelope
    { endpoint := none, apiKey := none, deployment := none }
    (.ok (JVal.obj [])) none cexParse (.reply ⟨200, "ENVELOPE"⟩)
  exact ⟨h.1, h.2.1 rfl, h.2.2.1 rfl⟩

end CramDemand
